import Mathlib

/-!
Verification of the `ship` cluster-orchestration CLI (`ship.py`).

The program drives four external tools (terraform, kops, helm, kubectl) through
a fixed sequence of subprocess invocations, gated by config validation,
interactive confirmation prompts, and two availability-polling loops.

Shallow embedding conventions:
- Subprocess invocations are opaque: each call site's outcome (zero /
  non-zero exit, i.e. no exception / `CalledProcessError`) is a `Bool` or a
  small outcome inductive supplied as a parameter.
- Command flows are modelled as functions producing a trace of events
  (`FlowEv`) plus how the process terminates (`ExitKind`): a normal return,
  a `sys.exit(code)` (also used for click's confirmation abort, which exits
  with status 1), or an unhandled Python exception (which terminates the
  interpreter with a traceback, not a one-line contextual message).
- Wall-clock time in the pollers is discrete: a failed iteration advances
  the clock by exactly the sleep interval; probes are instantaneous.
- The terraform state file (`tf_state['modules'][0]['resources']`) is an
  association list from resource keys (e.g. "aws_vpc.<name>") to the
  resource's `primary.id` string.
-/

namespace Ship

/-! ## Cluster config enrichment (`generate_kops_config`, ship.py lines 37-59) -/

/-- The `clusterConfig` mapping. The four infrastructure identifiers are
optional (`'VPCID' not in cluster_config` in Python corresponds to `none`). -/
structure ClusterConfig where
  AWSRegion : String
  AWSAZ1 : String
  ShortName : String
  FullyQualifiedName : String
  ConfigBaseURL : String
  VPCID : Option String
  PublicNATGatewayID : Option String
  NodeSubnetID : Option String
  PublicSubnetID : Option String
deriving Repr, DecidableEq

/-- One `if <key> not in cluster_config: cluster_config[<key>] = tf_resources[<rkey>]...`
step: keep an explicitly set value; otherwise look the resource up in the
state, a missing entry raising `KeyError`. -/
def enrich (cur : Option String) (rkey : String) (tf : List (String × String)) :
    Except String String :=
  match cur with
  | some v => Except.ok v
  | none =>
    match List.lookup rkey tf with
    | some rid => Except.ok rid
    | none => Except.error ("KeyError: " ++ rkey)

/-- The enrichment core of `generate_kops_config` (ship.py lines 37-59):
`region = AWSRegion + AWSAZ1`; each of the four identifiers is filled from the
state file only when absent, under the naming convention of the source. -/
def generate_kops_config (cc : ClusterConfig) (tf : List (String × String)) :
    Except String ClusterConfig :=
  let region := cc.AWSRegion ++ cc.AWSAZ1
  match enrich cc.VPCID ("aws_vpc." ++ cc.ShortName) tf with
  | Except.error e => Except.error e
  | Except.ok vpc =>
    match enrich cc.PublicNATGatewayID ("aws_nat_gateway.public-" ++ region) tf with
    | Except.error e => Except.error e
    | Except.ok natgw =>
      match enrich cc.NodeSubnetID ("aws_subnet.nodes-" ++ region) tf with
      | Except.error e => Except.error e
      | Except.ok node =>
        match enrich cc.PublicSubnetID ("aws_subnet.public-" ++ region) tf with
        | Except.error e => Except.error e
        | Except.ok pub =>
          Except.ok { cc with VPCID := some vpc, PublicNATGatewayID := some natgw,
                              NodeSubnetID := some node, PublicSubnetID := some pub }

/-- Concrete cluster config used to exercise the enrichment theorem: the VPC
identifier is supplied explicitly, the other three are absent. -/
def ccSample : ClusterConfig :=
  { AWSRegion := "eu-west-1", AWSAZ1 := "a", ShortName := "ship",
    FullyQualifiedName := "ship.example.com", ConfigBaseURL := "s3://ship-state",
    VPCID := some "vpc-explicit", PublicNATGatewayID := none,
    NodeSubnetID := none, PublicSubnetID := none }

/-- Concrete terraform state resources for the sample config. -/
def tfSample : List (String × String) :=
  [("aws_vpc.ship", "vpc-from-state"),
   ("aws_nat_gateway.public-eu-west-1a", "nat-from-state"),
   ("aws_subnet.nodes-eu-west-1a", "nodes-from-state"),
   ("aws_subnet.public-eu-west-1a", "public-from-state")]

/-- Result of enriching `ccSample` from `tfSample`. -/
def ccSampleEnriched : ClusterConfig :=
  { ccSample with
    VPCID := some "vpc-explicit",
    PublicNATGatewayID := some "nat-from-state",
    NodeSubnetID := some "nodes-from-state",
    PublicSubnetID := some "public-from-state" }

/-! ## Availability pollers (`wait_cluster_available` ship.py lines 216-235,
`wait_tiller_available` lines 237-255)

A probe is instantaneous; a failed iteration advances the wall clock by the
sleep interval (30s for the cluster poller, 15s for the tiller poller). -/

/-- Outcome of one `kubectl version --output json` probe: either some step of
`check_output`/`json.loads` raised, or it produced a parsed document which may
or may not contain the key `serverVersion`. -/
inductive KubectlProbe where
  | exn
  | ok (hasServerVersion : Bool)
deriving Repr, DecidableEq

/-- The body of the cluster poller's `try` block: availability is established
exactly when the probe did not raise and `'serverVersion' in kubectl_versions`;
a raised exception falls into the bare `except: pass`. -/
def clusterProbeAvailable : KubectlProbe → Bool
  | KubectlProbe.exn => false
  | KubectlProbe.ok b => b

/-- Outcome of one `helm version --server` probe: `check_call` either returns
(zero exit) or raises (`CalledProcessError` or a launch failure). -/
inductive TillerProbe where
  | ok
  | exn
deriving Repr, DecidableEq

/-- The tiller poller's `try` block: available exactly when `check_call`
did not raise. -/
def tillerProbeAvailable : TillerProbe → Bool
  | TillerProbe.ok => true
  | TillerProbe.exn => false

/-- Observable poller events: the i-th probe attempt, and a blocking sleep. -/
inductive PollEv where
  | attempt (i : Nat)
  | sleep (secs : Nat)
deriving Repr, DecidableEq

/-- The `while not cluster_available and time.time() < timeout_time` loop of
`wait_cluster_available`: probe, swallow failures, sleep 30 seconds when still
unavailable. Returns the event trace and the final `cluster_available` flag. -/
def cluster_loop (probe : Nat → KubectlProbe) (timeout t i : Nat) : List PollEv × Bool :=
  if t < timeout then
    if clusterProbeAvailable (probe i) then ([PollEv.attempt i], true)
    else
      let r := cluster_loop probe timeout (t + 30) (i + 1)
      (PollEv.attempt i :: PollEv.sleep 30 :: r.1, r.2)
  else ([], false)
termination_by timeout - t
decreasing_by omega

/-- The `while not tiller_available and time.time() < timeout_time` loop of
`wait_tiller_available`, with its 15-second sleep. -/
def tiller_loop (probe : Nat → TillerProbe) (timeout t i : Nat) : List PollEv × Bool :=
  if t < timeout then
    if tillerProbeAvailable (probe i) then ([PollEv.attempt i], true)
    else
      let r := tiller_loop probe timeout (t + 15) (i + 1)
      (PollEv.attempt i :: PollEv.sleep 15 :: r.1, r.2)
  else ([], false)
termination_by timeout - t
decreasing_by omega

/-- How a poller run ends: its event trace, the availability flag, the final
message printed to stderr (if any), and the `sys.exit` code (if any). -/
structure PollerResult where
  trace : List PollEv
  available : Bool
  errMsg : Option String
  exitCode : Option Nat
deriving Repr, DecidableEq

/-- Model of `wait_cluster_available(timeout_minutes)`: run the loop with deadline
`timeout_minutes * 60`; if it ends unavailable, print the unreachable message
to stderr and `sys.exit(1)`. -/
def wait_cluster_available (probe : Nat → KubectlProbe) (timeoutMinutes : Nat) : PollerResult :=
  let r := cluster_loop probe (timeoutMinutes * 60) 0 0
  if r.2 then ⟨r.1, true, none, none⟩
  else ⟨r.1, false, some "Kubernetes server could not be contacted.", some 1⟩

/-- Model of `wait_tiller_available(timeout_minutes)`. -/
def wait_tiller_available (probe : Nat → TillerProbe) (timeoutMinutes : Nat) : PollerResult :=
  let r := tiller_loop probe (timeoutMinutes * 60) 0 0
  if r.2 then ⟨r.1, true, none, none⟩
  else ⟨r.1, false, some "Helm tiller could not be contacted.", some 1⟩

def isAttempt : PollEv → Bool
  | PollEv.attempt _ => true
  | PollEv.sleep _ => false

/-- Number of probe attempts recorded in a poller trace. -/
def countAttempts (tr : List PollEv) : Nat := (tr.filter isAttempt).length

/-- A trace alternates attempts with sleeps of the given interval: every
attempt that is followed by anything is followed by `sleep interval`. -/
def sleepsBetween (interval : Nat) : List PollEv → Bool
  | [] => true
  | [PollEv.attempt _] => true
  | PollEv.attempt _ :: PollEv.sleep s :: rest =>
      s == interval && sleepsBetween interval rest
  | _ => false

/-! ## Command flows (`create` / `update` / `destroy`, ship.py lines 165-301)

Each flow is a function from the outcomes of its subprocess calls (a `Bool`
per call site: `true` = zero exit, `false` = the call raised) to the trace of
observable events and the way the process terminates. -/

/-- Observable events of a command flow. -/
inductive FlowEv where
  | renderTf
  | tfApply
  | renderKops
  | kopsCreate
  | kopsSshKey
  | kopsUpdate
  | kopsReplace
  | kopsRolling
  | kopsDelete
  | tfDestroy
  | pollCluster
  | pollTiller
  | kubectlApplyPerms
  | helmInit
  | repoAdd (name : String)
  | chartInstall (release : String)
  | promptShown (msg : String)
  | errLine (msg : String)
deriving Repr, DecidableEq

/-- How the process terminates: normal return, `sys.exit(code)` (click's
confirmation abort also exits with status 1), or an uncaught Python exception
(the interpreter prints a traceback, not a one-line contextual message). -/
inductive ExitKind where
  | normal
  | exited (code : Nat)
  | unhandled
deriving Repr, DecidableEq

/-- Run a list of (event, outcome) steps inside a `try` block: steps execute
in order until the first one that raises; its event is still recorded (the
call was made) and no later step runs. -/
def runSteps : List (FlowEv × Bool) → List FlowEv × Bool
  | [] => ([], true)
  | (e, ok) :: rest =>
    if ok then
      let t := runSteps rest
      (e :: t.1, t.2)
    else ([e], false)

/-- The body of `destroy` after the confirmation gate (ship.py lines 267-272):
kops delete first, then terraform destroy, inside one `try` whose handler
prints "Destroy cluster failed:" and exits 1. -/
def destroy_body (kopsDeleteOk tfDestroyOk : Bool) : List FlowEv × ExitKind :=
  if kopsDeleteOk then
    if tfDestroyOk then ([FlowEv.kopsDelete, FlowEv.tfDestroy], ExitKind.normal)
    else ([FlowEv.kopsDelete, FlowEv.tfDestroy, FlowEv.errLine "Destroy cluster failed:"],
          ExitKind.exited 1)
  else ([FlowEv.kopsDelete, FlowEv.errLine "Destroy cluster failed:"], ExitKind.exited 1)

/-- The `destroy` command (ship.py lines 258-272): without `--yes` a
confirmation prompt is shown and declining aborts (click exits with status 1)
before any destroy step. -/
def destroy_run (name : String) (yes confirmAnswer kopsDeleteOk tfDestroyOk : Bool) :
    List FlowEv × ExitKind :=
  if yes then destroy_body kopsDeleteOk tfDestroyOk
  else if confirmAnswer then
    let b := destroy_body kopsDeleteOk tfDestroyOk
    (FlowEv.promptShown ("Are you sure you want to destroy " ++ name ++ "?") :: b.1, b.2)
  else ([FlowEv.promptShown ("Are you sure you want to destroy " ++ name ++ "?")],
        ExitKind.exited 1)

/-- Outcomes of the subprocess calls made by `update`. -/
structure UpdateOutcomes where
  renderTfOk : Bool
  tfApplyOk : Bool
  renderKopsOk : Bool
  kopsReplaceOk : Bool
  kopsUpdateOk : Bool
  kopsRollingOk : Bool
deriving Repr, DecidableEq

/-- The `try` body of `update` (ship.py lines 287-301): render, apply, render
kops config, replace, update, then `if yes or click.confirm(...)` gate the
rolling update; any raise is caught, printing "Update cluster failed:" and
exiting 1. -/
def update_try (o : UpdateOutcomes) (yes rollingAnswer : Bool) : List FlowEv × ExitKind :=
  let s := runSteps [(FlowEv.renderTf, o.renderTfOk), (FlowEv.tfApply, o.tfApplyOk),
    (FlowEv.renderKops, o.renderKopsOk), (FlowEv.kopsReplace, o.kopsReplaceOk),
    (FlowEv.kopsUpdate, o.kopsUpdateOk)]
  if s.2 then
    if yes then
      if o.kopsRollingOk then (s.1 ++ [FlowEv.kopsRolling], ExitKind.normal)
      else (s.1 ++ [FlowEv.kopsRolling, FlowEv.errLine "Update cluster failed:"],
            ExitKind.exited 1)
    else
      if rollingAnswer then
        if o.kopsRollingOk then
          (s.1 ++ [FlowEv.promptShown "Should I initiate a rolling update?",
                   FlowEv.kopsRolling], ExitKind.normal)
        else
          (s.1 ++ [FlowEv.promptShown "Should I initiate a rolling update?",
                   FlowEv.kopsRolling, FlowEv.errLine "Update cluster failed:"],
           ExitKind.exited 1)
      else (s.1 ++ [FlowEv.promptShown "Should I initiate a rolling update?"],
            ExitKind.normal)
  else (s.1 ++ [FlowEv.errLine "Update cluster failed:"], ExitKind.exited 1)

/-- The `update` command (ship.py lines 274-301) with its confirmation gate. -/
def update_run (name : String) (o : UpdateOutcomes) (yes confirmAnswer rollingAnswer : Bool) :
    List FlowEv × ExitKind :=
  if yes then update_try o yes rollingAnswer
  else if confirmAnswer then
    let b := update_try o yes rollingAnswer
    (FlowEv.promptShown ("Are you sure you want to update " ++ name ++ "?") :: b.1, b.2)
  else ([FlowEv.promptShown ("Are you sure you want to update " ++ name ++ "?")],
        ExitKind.exited 1)

/-- Events that are one of the two destroy subprocess calls. -/
def isDestroyStep : FlowEv → Bool
  | FlowEv.kopsDelete => true
  | FlowEv.tfDestroy => true
  | _ => false

/-! ## Chart installer driver (`install_components` lines 197-206,
`install_chart` lines 208-214) -/

/-- An entry of the config's `chartRepos` list. -/
structure RepoSpec where
  name : String
  url : String
deriving Repr, DecidableEq

/-- An entry of the config's `charts` list. -/
structure ChartSpec where
  name : String
  release : String
  nspace : String
  overrides : Option String
deriving Repr, DecidableEq

/-- The `for repo in config['chartRepos']` loop: `helm repo add` each repo in
declaration order; `check_call` raising aborts the loop (the exception
propagates), the failing attempt still having been made. -/
def install_repos (ok : RepoSpec → Bool) : List RepoSpec → List FlowEv × Bool
  | [] => ([], true)
  | r :: rest =>
    if ok r then
      let t := install_repos ok rest
      (FlowEv.repoAdd r.name :: t.1, t.2)
    else ([FlowEv.repoAdd r.name], false)

/-- The `for chart in config['charts']` loop: `install_chart` each chart in
declaration order, aborting at the first raise. -/
def install_charts (ok : ChartSpec → Bool) : List ChartSpec → List FlowEv × Bool
  | [] => ([], true)
  | c :: rest =>
    if ok c then
      let t := install_charts ok rest
      (FlowEv.chartInstall c.release :: t.1, t.2)
    else ([FlowEv.chartInstall c.release], false)

/-- The repo/chart phase of `install_components`: all repos first, then all
charts; an exception in the repo loop prevents the chart loop from running. -/
def install_repos_charts (repos : List RepoSpec) (charts : List ChartSpec)
    (okR : RepoSpec → Bool) (okC : ChartSpec → Bool) : List FlowEv × Bool :=
  let r := install_repos okR repos
  if r.2 then
    let c := install_charts okC charts
    (r.1 ++ c.1, c.2)
  else (r.1, false)

/-! ## The `create` flow (ship.py lines 165-189) and `install_components`
(lines 191-206).

`create` guards its first six steps with a `try` whose handler prints
"Create cluster failed:" and exits 1, but `wait_cluster_available` and
`install_components` are called OUTSIDE that `try`: an exception raised by
`install_components` (a failing `check_call`) propagates uncaught. -/

/-- Outcomes of the subprocess calls made by `install_components`. -/
structure InstallOutcomes where
  kubectlPermsOk : Bool
  helmInitOk : Bool
  tillerProbe : Nat → TillerProbe
  repoOk : RepoSpec → Bool
  chartOk : ChartSpec → Bool

/-- Model of `install_components`: apply tiller permissions, `helm init`, wait for
tiller (which may exit the process), then repos and charts. None of these
calls is inside a `try`: a raise terminates the process unhandled. -/
def install_components_run (o : InstallOutcomes) (repos : List RepoSpec)
    (charts : List ChartSpec) (tillerTimeout : Nat) : List FlowEv × ExitKind :=
  if o.kubectlPermsOk then
    if o.helmInitOk then
      let pr := wait_tiller_available o.tillerProbe tillerTimeout
      match pr.exitCode with
      | some c =>
        ([FlowEv.kubectlApplyPerms, FlowEv.helmInit, FlowEv.pollTiller] ++
           pr.errMsg.toList.map FlowEv.errLine, ExitKind.exited c)
      | none =>
        let rc := install_repos_charts repos charts o.repoOk o.chartOk
        ([FlowEv.kubectlApplyPerms, FlowEv.helmInit, FlowEv.pollTiller] ++ rc.1,
         if rc.2 then ExitKind.normal else ExitKind.unhandled)
    else ([FlowEv.kubectlApplyPerms, FlowEv.helmInit], ExitKind.unhandled)
  else ([FlowEv.kubectlApplyPerms], ExitKind.unhandled)

/-- Outcomes of the subprocess calls made by `create`. -/
structure CreateOutcomes where
  renderTfOk : Bool
  tfApplyOk : Bool
  renderKopsOk : Bool
  kopsCreateOk : Bool
  kopsSshOk : Bool
  kopsUpdateOk : Bool
  clusterProbe : Nat → KubectlProbe
  inst : InstallOutcomes

/-- The six steps of `create`'s `try` block, in source order. -/
def create_try_steps (o : CreateOutcomes) : List (FlowEv × Bool) :=
  [(FlowEv.renderTf, o.renderTfOk), (FlowEv.tfApply, o.tfApplyOk),
   (FlowEv.renderKops, o.renderKopsOk), (FlowEv.kopsCreate, o.kopsCreateOk),
   (FlowEv.kopsSshKey, o.kopsSshOk), (FlowEv.kopsUpdate, o.kopsUpdateOk)]

/-- The `create` command: guarded steps, then the cluster poller (which may
exit the process), then `install_components` — both outside the `try`. -/
def create_run (o : CreateOutcomes) (repos : List RepoSpec) (charts : List ChartSpec)
    (clusterTimeout tillerTimeout : Nat) : List FlowEv × ExitKind :=
  let s := runSteps (create_try_steps o)
  if s.2 then
    let pr := wait_cluster_available o.clusterProbe clusterTimeout
    match pr.exitCode with
    | some c =>
      (s.1 ++ [FlowEv.pollCluster] ++ pr.errMsg.toList.map FlowEv.errLine,
       ExitKind.exited c)
    | none =>
      let ic := install_components_run o.inst repos charts tillerTimeout
      (s.1 ++ [FlowEv.pollCluster] ++ ic.1, ic.2)
  else (s.1 ++ [FlowEv.errLine "Create cluster failed:"], ExitKind.exited 1)

/-- Create-flow outcome used for the C7 counterexample: every guarded step
succeeds, the cluster becomes available on the first probe, and then the
`kubectl apply -f <tillerPermissions>` call inside `install_components`
raises. -/
def cexCreateOutcomes : CreateOutcomes :=
  ⟨true, true, true, true, true, true, fun _ => KubectlProbe.ok true,
   ⟨false, true, fun _ => TillerProbe.ok, fun _ => true, fun _ => true⟩⟩

/-- Create-flow outcome whose first guarded step (the terraform template
render) raises. -/
def cexFailCreate : CreateOutcomes :=
  ⟨false, true, true, true, true, true, fun _ => KubectlProbe.ok true,
   ⟨true, true, fun _ => TillerProbe.ok, fun _ => true, fun _ => true⟩⟩

/-! ## Terraform invocation argv (`terraform_apply` ship.py lines 61-62,
`terraform_destroy` lines 64-66; the state path is built at lines 177/289). -/

/-- The state-file path `'{}/terraform.tfstate'.format(output_dir)`. -/
def terraform_state_path (outputDir : String) : String :=
  outputDir ++ "/terraform.tfstate"

/-- The argv of `check_call` in `terraform_apply`:
`[terraform_bin, "apply", "-state=" + terraform_state_path, terraform_config_dir]`. -/
def terraform_apply_argv (bin configDir statePath : String) : List String :=
  [bin, "apply", "-state=" ++ statePath, configDir]

/-- The argv of `check_call` in `terraform_destroy`:
`[terraform_bin, "destroy", "-force", terraform_config_dir]`. -/
def terraform_destroy_argv (bin configDir : String) : List String :=
  [bin, "destroy", "-force", configDir]

/-! ## Config validation (`validate_config` ship.py lines 90-107,
`validate_file_exists` lines 86-88) and CLI startup (`cli` lines 142-163,
`set_binary_paths` lines 109-140). -/

/-- The `paths` section of the values document. The first five are required
by the schema; the last four are the optional binary overrides. -/
structure Paths where
  sshPublicKeyPath : String
  terraformTemplatePath : String
  kopsTemplatePath : String
  outputDir : String
  tillerPermissions : String
  terraform : Option String
  kops : Option String
  helm : Option String
  kubectl : Option String
deriving Repr, DecidableEq

/-- The ambient filesystem, as consulted by `os.path.isfile` / `os.path.isdir`. -/
structure FS where
  isFile : String → Bool
  isDir : String → Bool

/-- Validation steps, in the order `validate_config` performs them. -/
inductive CheckEv where
  | schemaLoad
  | schemaCheck
  | fileCheck (path : String) (context : String)
  | dirCheck (path : String)
deriving Repr, DecidableEq

/-- Model of `validate_file_exists(path, context)`: `None` on success, otherwise the
`IOError` message `"{context} not found at {path}"`. -/
def validate_file_exists (fs : FS) (path context : String) : Option String :=
  if fs.isFile path then none
  else some (context ++ " not found at " ++ path)

/-- The `if 'kops' in config['paths']` existence check at the end of
`validate_config`. -/
def validate_kops_override (fs : FS) (p : Paths) (tr : List CheckEv) :
    List CheckEv × Option String :=
  match p.kops with
  | some q =>
    (tr ++ [CheckEv.fileCheck q "kops binary"], validate_file_exists fs q "kops binary")
  | none => (tr, none)

/-- The `if 'terraform' in config['paths']` existence check, followed (only
when it passes) by the kops one. Note the source checks ONLY these two
overrides: `helm` and `kubectl` override paths are never existence-checked. -/
def validate_binary_overrides (fs : FS) (p : Paths) (tr : List CheckEv) :
    List CheckEv × Option String :=
  match p.terraform with
  | some q =>
    match validate_file_exists fs q "terraform binary" with
    | some e => (tr ++ [CheckEv.fileCheck q "terraform binary"], some e)
    | none => validate_kops_override fs p (tr ++ [CheckEv.fileCheck q "terraform binary"])
  | none => validate_kops_override fs p tr

/-- Model of `validate_config`: schema load, schema check, the three required file
checks, the output-directory check, then the overridden-binary checks.
Returns the trace of checks performed and the error (if any) that aborted
validation. -/
def validate_config (fs : FS) (schemaLoadOk schemaValid : Bool) (p : Paths) :
    List CheckEv × Option String :=
  if schemaLoadOk then
    if schemaValid then
      match validate_file_exists fs p.sshPublicKeyPath "SSH Public Key" with
      | some e =>
        ([CheckEv.schemaLoad, CheckEv.schemaCheck,
          CheckEv.fileCheck p.sshPublicKeyPath "SSH Public Key"], some e)
      | none =>
        match validate_file_exists fs p.terraformTemplatePath "Terraform Template" with
        | some e =>
          ([CheckEv.schemaLoad, CheckEv.schemaCheck,
            CheckEv.fileCheck p.sshPublicKeyPath "SSH Public Key",
            CheckEv.fileCheck p.terraformTemplatePath "Terraform Template"], some e)
        | none =>
          match validate_file_exists fs p.kopsTemplatePath "Kops Template" with
          | some e =>
            ([CheckEv.schemaLoad, CheckEv.schemaCheck,
              CheckEv.fileCheck p.sshPublicKeyPath "SSH Public Key",
              CheckEv.fileCheck p.terraformTemplatePath "Terraform Template",
              CheckEv.fileCheck p.kopsTemplatePath "Kops Template"], some e)
          | none =>
            if fs.isDir p.outputDir then
              validate_binary_overrides fs p
                [CheckEv.schemaLoad, CheckEv.schemaCheck,
                 CheckEv.fileCheck p.sshPublicKeyPath "SSH Public Key",
                 CheckEv.fileCheck p.terraformTemplatePath "Terraform Template",
                 CheckEv.fileCheck p.kopsTemplatePath "Kops Template",
                 CheckEv.dirCheck p.outputDir]
            else
              ([CheckEv.schemaLoad, CheckEv.schemaCheck,
                CheckEv.fileCheck p.sshPublicKeyPath "SSH Public Key",
                CheckEv.fileCheck p.terraformTemplatePath "Terraform Template",
                CheckEv.fileCheck p.kopsTemplatePath "Kops Template",
                CheckEv.dirCheck p.outputDir],
               some ("output directory '" ++ p.outputDir ++ "' does not exist"))
    else ([CheckEv.schemaLoad, CheckEv.schemaCheck], some "ValidationError")
  else ([CheckEv.schemaLoad], some "Failed to load config values schema file")

/-- The four external tools, in the order `set_binary_paths` probes them. -/
inductive Tool where
  | terraform
  | kops
  | helm
  | kubectl
deriving Repr, DecidableEq

/-- The `IOError` message raised when a tool's version probe fails (the
source appends `": " + str(e)`; we model the fixed part). -/
def tool_probe_error : Tool → String
  | Tool.terraform => "terraform executable not valid"
  | Tool.kops => "kops executable not valid"
  | Tool.helm => "helm executable not valid"
  | Tool.kubectl => "kubectl executable not valid"

/-- The four resolved binary paths (module-level `*_bin` variables). -/
structure Bins where
  terraform_bin : String
  kops_bin : String
  helm_bin : String
  kubectl_bin : String
deriving Repr, DecidableEq

/-- Model of `set_binary_paths`: for each tool in order terraform, kops, helm, kubectl:
take the override path if present (else the bare name resolved via `$PATH`),
then run the version probe; a failing probe raises `IOError` naming the tool
and nothing after it runs. -/
def set_binary_paths (p : Paths) (probeOk : Tool → Bool) : Except String Bins :=
  let tb := p.terraform.getD "terraform"
  if probeOk Tool.terraform then
    let kb := p.kops.getD "kops"
    if probeOk Tool.kops then
      let hb := p.helm.getD "helm"
      if probeOk Tool.helm then
        let ub := p.kubectl.getD "kubectl"
        if probeOk Tool.kubectl then Except.ok ⟨tb, kb, hb, ub⟩
        else Except.error (tool_probe_error Tool.kubectl)
      else Except.error (tool_probe_error Tool.helm)
    else Except.error (tool_probe_error Tool.kops)
  else Except.error (tool_probe_error Tool.terraform)

/-- The first tool (in probe order) whose version probe fails, if any. -/
def firstFailingTool (probeOk : Tool → Bool) : Option Tool :=
  if probeOk Tool.terraform = false then some Tool.terraform
  else if probeOk Tool.kops = false then some Tool.kops
  else if probeOk Tool.helm = false then some Tool.helm
  else if probeOk Tool.kubectl = false then some Tool.kubectl
  else none

/-- The `cli` group callback (ship.py lines 142-163): read the values file,
parse it, validate, set binary paths (whose `IOError` is NOT caught — it
escapes as an unhandled exception), then run the subcommand `cmd`. -/
def cli_run (readOk parseOk : Bool) (fs : FS) (schemaLoadOk schemaValid : Bool)
    (p : Paths) (probeOk : Tool → Bool) (cmd : List FlowEv × ExitKind) :
    List FlowEv × ExitKind :=
  if readOk then
    if parseOk then
      match (validate_config fs schemaLoadOk schemaValid p).2 with
      | some _ => ([FlowEv.errLine "Config validation failed:"], ExitKind.exited 1)
      | none =>
        match set_binary_paths p probeOk with
        | Except.error _ => ([], ExitKind.unhandled)
        | Except.ok _ => cmd
    else ([FlowEv.errLine "Failed to parse values file:"], ExitKind.exited 1)
  else ([FlowEv.errLine "Failed to read values file:"], ExitKind.exited 1)

/-- A filesystem for the C4 counterexample: the three required files and the
output directory exist; `/no/such/helm` does not. -/
def cexFS : FS :=
  ⟨fun q => q == "/home/u/key.pub" || q == "/tpl/networking.tf.tpl" || q == "/tpl/kops.tpl",
   fun q => q == "/out"⟩

/-- A config whose `helm` binary override points at a nonexistent path. -/
def cexPaths : Paths :=
  { sshPublicKeyPath := "/home/u/key.pub", terraformTemplatePath := "/tpl/networking.tf.tpl",
    kopsTemplatePath := "/tpl/kops.tpl", outputDir := "/out",
    tillerPermissions := "/perm.yaml", terraform := none, kops := none,
    helm := some "/no/such/helm", kubectl := none }

/-- Filesystem/config for the amended-C4 witness and the C5 witness: both
overridden binaries exist. -/
def cexFS2 : FS :=
  ⟨fun q => q == "/ssh.pub" || q == "/t.tpl" || q == "/k.tpl" ||
      q == "/bin/terraform" || q == "/bin/kops",
   fun q => q == "/out"⟩

def cexPaths2 : Paths :=
  { sshPublicKeyPath := "/ssh.pub", terraformTemplatePath := "/t.tpl",
    kopsTemplatePath := "/k.tpl", outputDir := "/out",
    tillerPermissions := "/perm.yaml", terraform := some "/bin/terraform",
    kops := some "/bin/kops", helm := none, kubectl := none }

/-- Probe outcomes where only the helm probe fails. -/
def helmFailProbe : Tool → Bool
  | Tool.helm => false
  | _ => true

/-! ## Theorems -/

theorem enrich_ok {cur : Option String} {rkey : String} {tf : List (String × String)}
    {v : String} (h : enrich cur rkey tf = Except.ok v) :
    cur = some v ∨ (cur = none ∧ List.lookup rkey tf = some v) := by
  cases cur with
  | some w =>
    simp only [enrich] at h
    cases h
    exact Or.inl rfl
  | none =>
    cases hl : List.lookup rkey tf with
    | some rid =>
      simp only [enrich, hl, Except.ok.injEq] at h
      subst h
      exact Or.inr ⟨rfl, rfl⟩
    | none => simp [enrich, hl] at h

theorem enrich_ok_spec {cur : Option String} {rkey : String} {tf : List (String × String)}
    {v : String} (h : enrich cur rkey tf = Except.ok v) :
    (∀ w, cur = some w → (some v : Option String) = some w) ∧
    (cur = none → (some v : Option String) = List.lookup rkey tf) := by
  rcases enrich_ok h with hc | ⟨hc, hl⟩
  · constructor
    · intro w hw
      rw [hc] at hw
      exact hw
    · intro hn
      rw [hc] at hn
      cases hn
  · constructor
    · intro w hw
      rw [hc] at hw
      cases hw
    · intro _
      exact hl.symm

/-- C1. Enrichment precedence: for every cluster config and every terraform
state, whenever `generate_kops_config` succeeds, an identifier already present
in the config is never overwritten, and an absent identifier is populated from
the state entry named by the source's convention: `aws_vpc.<ShortName>` for the
VPC, and `aws_nat_gateway.public-`, `aws_subnet.nodes-`, `aws_subnet.public-`
followed by the concatenation `AWSRegion ++ AWSAZ1` for the other three. -/
theorem C1_enrichment_precedence (cc : ClusterConfig) (tf : List (String × String))
    (cc' : ClusterConfig) (h : generate_kops_config cc tf = Except.ok cc') :
    (∀ v, cc.VPCID = some v → cc'.VPCID = some v) ∧
    (cc.VPCID = none → cc'.VPCID = List.lookup ("aws_vpc." ++ cc.ShortName) tf) ∧
    (∀ v, cc.PublicNATGatewayID = some v → cc'.PublicNATGatewayID = some v) ∧
    (cc.PublicNATGatewayID = none →
      cc'.PublicNATGatewayID =
        List.lookup ("aws_nat_gateway.public-" ++ (cc.AWSRegion ++ cc.AWSAZ1)) tf) ∧
    (∀ v, cc.NodeSubnetID = some v → cc'.NodeSubnetID = some v) ∧
    (cc.NodeSubnetID = none →
      cc'.NodeSubnetID =
        List.lookup ("aws_subnet.nodes-" ++ (cc.AWSRegion ++ cc.AWSAZ1)) tf) ∧
    (∀ v, cc.PublicSubnetID = some v → cc'.PublicSubnetID = some v) ∧
    (cc.PublicSubnetID = none →
      cc'.PublicSubnetID =
        List.lookup ("aws_subnet.public-" ++ (cc.AWSRegion ++ cc.AWSAZ1)) tf) := by
  simp only [generate_kops_config] at h
  split at h
  · cases h
  case _ vpc hv =>
  split at h
  · cases h
  case _ natgw hn =>
  split at h
  · cases h
  case _ node hnd =>
  split at h
  · cases h
  case _ pub hp =>
  cases h
  refine ⟨?_, ?_, ?_, ?_, ?_, ?_, ?_, ?_⟩
  · exact fun v hw => (enrich_ok_spec hv).1 v hw
  · exact fun hn2 => (enrich_ok_spec hv).2 hn2
  · exact fun v hw => (enrich_ok_spec hn).1 v hw
  · exact fun hn2 => (enrich_ok_spec hn).2 hn2
  · exact fun v hw => (enrich_ok_spec hnd).1 v hw
  · exact fun hn2 => (enrich_ok_spec hnd).2 hn2
  · exact fun v hw => (enrich_ok_spec hp).1 v hw
  · exact fun hn2 => (enrich_ok_spec hp).2 hn2

/-- Witness for C1 at a concrete input: the explicit VPC id survives
enrichment and the absent NAT gateway id is filled from the state. -/
theorem C1_enrichment_precedence_witness :
    generate_kops_config ccSample tfSample = Except.ok ccSampleEnriched ∧
      ccSampleEnriched.VPCID = some "vpc-explicit" ∧
      ccSampleEnriched.PublicNATGatewayID =
        List.lookup "aws_nat_gateway.public-eu-west-1a" tfSample := by
  have hok : generate_kops_config ccSample tfSample = Except.ok ccSampleEnriched := by rfl
  have h := C1_enrichment_precedence ccSample tfSample ccSampleEnriched hok
  exact ⟨hok, h.1 "vpc-explicit" rfl, h.2.2.2.1 rfl⟩

theorem cluster_loop_congr (p q : Nat → KubectlProbe)
    (h : ∀ i, clusterProbeAvailable (p i) = clusterProbeAvailable (q i)) :
    ∀ k timeout t i, timeout - t ≤ 30 * k →
      cluster_loop p timeout t i = cluster_loop q timeout t i := by
  intro k
  induction k with
  | zero =>
    intro timeout t i hk
    conv_lhs => rw [cluster_loop]
    conv_rhs => rw [cluster_loop]
    have ht : ¬ t < timeout := by omega
    simp [ht]
  | succ k ih =>
    intro timeout t i hk
    conv_lhs => rw [cluster_loop]
    conv_rhs => rw [cluster_loop]
    by_cases ht : t < timeout
    · simp only [ht, if_true, h i]
      by_cases ha : clusterProbeAvailable (q i)
      · simp [ha]
      · simp only [Bool.not_eq_true] at ha
        simp only [ha, if_false]
        rw [ih timeout (t + 30) (i + 1) (by omega)]
    · simp [ht]

theorem tiller_loop_congr (p q : Nat → TillerProbe)
    (h : ∀ i, tillerProbeAvailable (p i) = tillerProbeAvailable (q i)) :
    ∀ k timeout t i, timeout - t ≤ 15 * k →
      tiller_loop p timeout t i = tiller_loop q timeout t i := by
  intro k
  induction k with
  | zero =>
    intro timeout t i hk
    conv_lhs => rw [tiller_loop]
    conv_rhs => rw [tiller_loop]
    have ht : ¬ t < timeout := by omega
    simp [ht]
  | succ k ih =>
    intro timeout t i hk
    conv_lhs => rw [tiller_loop]
    conv_rhs => rw [tiller_loop]
    by_cases ht : t < timeout
    · simp only [ht, if_true, h i]
      by_cases ha : tillerProbeAvailable (q i)
      · simp [ha]
      · simp only [Bool.not_eq_true] at ha
        simp only [ha, if_false]
        rw [ih timeout (t + 15) (i + 1) (by omega)]
    · simp [ht]

theorem cluster_loop_never (probe : Nat → KubectlProbe)
    (h : ∀ i, clusterProbeAvailable (probe i) = false) :
    ∀ k timeout t i, timeout - t ≤ 30 * k →
      (cluster_loop probe timeout t i).2 = false := by
  intro k
  induction k with
  | zero =>
    intro timeout t i hk
    rw [cluster_loop]
    have ht : ¬ t < timeout := by omega
    simp [ht]
  | succ k ih =>
    intro timeout t i hk
    rw [cluster_loop]
    by_cases ht : t < timeout
    · simp only [ht, if_true, h i, if_false]
      exact ih timeout (t + 30) (i + 1) (by omega)
    · simp [ht]

theorem tiller_loop_never (probe : Nat → TillerProbe)
    (h : ∀ i, tillerProbeAvailable (probe i) = false) :
    ∀ k timeout t i, timeout - t ≤ 15 * k →
      (tiller_loop probe timeout t i).2 = false := by
  intro k
  induction k with
  | zero =>
    intro timeout t i hk
    rw [tiller_loop]
    have ht : ¬ t < timeout := by omega
    simp [ht]
  | succ k ih =>
    intro timeout t i hk
    rw [tiller_loop]
    by_cases ht : t < timeout
    · simp only [ht, if_true, h i, if_false]
      exact ih timeout (t + 15) (i + 1) (by omega)
    · simp [ht]

theorem cluster_loop_sleeps (probe : Nat → KubectlProbe) :
    ∀ k timeout t i, timeout - t ≤ 30 * k →
      sleepsBetween 30 (cluster_loop probe timeout t i).1 = true := by
  intro k
  induction k with
  | zero =>
    intro timeout t i hk
    rw [cluster_loop]
    have ht : ¬ t < timeout := by omega
    simp [ht, sleepsBetween]
  | succ k ih =>
    intro timeout t i hk
    rw [cluster_loop]
    by_cases ht : t < timeout
    · by_cases ha : clusterProbeAvailable (probe i)
      · simp [ht, ha, sleepsBetween]
      · simp only [Bool.not_eq_true] at ha
        simp only [ht, if_true, ha, if_false]
        simp only [sleepsBetween, beq_self_eq_true, Bool.true_and]
        exact ih timeout (t + 30) (i + 1) (by omega)
    · simp [ht, sleepsBetween]

theorem tiller_loop_sleeps (probe : Nat → TillerProbe) :
    ∀ k timeout t i, timeout - t ≤ 15 * k →
      sleepsBetween 15 (tiller_loop probe timeout t i).1 = true := by
  intro k
  induction k with
  | zero =>
    intro timeout t i hk
    rw [tiller_loop]
    have ht : ¬ t < timeout := by omega
    simp [ht, sleepsBetween]
  | succ k ih =>
    intro timeout t i hk
    rw [tiller_loop]
    by_cases ht : t < timeout
    · by_cases ha : tillerProbeAvailable (probe i)
      · simp [ht, ha, sleepsBetween]
      · simp only [Bool.not_eq_true] at ha
        simp only [ht, if_true, ha, if_false]
        simp only [sleepsBetween, beq_self_eq_true, Bool.true_and]
        exact ih timeout (t + 15) (i + 1) (by omega)
    · simp [ht, sleepsBetween]

/-- C2. Poller attempt bound: with the cluster poller's 30-second probe
interval and a timeout of 1 minute, a probe that never succeeds is attempted
at most 2 times before the poller prints its unreachable message to stderr and
the process exits with status 1. -/
theorem C2_cluster_poller_attempt_bound (probe : Nat → KubectlProbe)
    (h : ∀ i, clusterProbeAvailable (probe i) = false) :
    countAttempts (wait_cluster_available probe 1).trace ≤ 2 ∧
    (wait_cluster_available probe 1).errMsg =
      some "Kubernetes server could not be contacted." ∧
    (wait_cluster_available probe 1).exitCode = some 1 := by
  have hloop : cluster_loop probe 60 0 0 =
      ([PollEv.attempt 0, PollEv.sleep 30, PollEv.attempt 1, PollEv.sleep 30], false) := by
    rw [cluster_loop]
    norm_num [h 0]
    rw [cluster_loop]
    norm_num [h 1]
    rw [cluster_loop]
    norm_num
  have hw : wait_cluster_available probe 1 =
      ⟨[PollEv.attempt 0, PollEv.sleep 30, PollEv.attempt 1, PollEv.sleep 30], false,
        some "Kubernetes server could not be contacted.", some 1⟩ := by
    unfold wait_cluster_available
    rw [show (1 * 60 : Nat) = 60 from rfl, hloop]
    rfl
  rw [hw]
  exact ⟨by decide, rfl, rfl⟩

/-- Witness for C2: a probe that raises on every attempt. -/
theorem C2_cluster_poller_attempt_bound_witness :
    countAttempts (wait_cluster_available (fun _ => KubectlProbe.exn) 1).trace ≤ 2 ∧
    (wait_cluster_available (fun _ => KubectlProbe.exn) 1).errMsg =
      some "Kubernetes server could not be contacted." ∧
    (wait_cluster_available (fun _ => KubectlProbe.exn) 1).exitCode = some 1 :=
  C2_cluster_poller_attempt_bound (fun _ => KubectlProbe.exn) (fun _ => rfl)

/-- C6. Poller error tolerance and timeout fatality, for both pollers:
(1)-(2) a probe stream is interchangeable with any stream of equal
availability — in particular, attempts that raise (`KubectlProbe.exn`,
`TillerProbe.exn`, covering malformed probe output) behave exactly like plain
"not yet available" results and are never fatal mid-loop;
(3)-(4) the trace sleeps the poller's interval (30s / 15s) between attempts;
(5)-(6) when no probe ever succeeds the poller prints its specific
unreachable message to stderr and exits the process with status 1. -/
theorem C6_poller_error_tolerance (m : Nat) :
    (∀ p q : Nat → KubectlProbe,
      (∀ i, clusterProbeAvailable (p i) = clusterProbeAvailable (q i)) →
      wait_cluster_available p m = wait_cluster_available q m) ∧
    (∀ p q : Nat → TillerProbe,
      (∀ i, tillerProbeAvailable (p i) = tillerProbeAvailable (q i)) →
      wait_tiller_available p m = wait_tiller_available q m) ∧
    (∀ p, sleepsBetween 30 (wait_cluster_available p m).trace = true) ∧
    (∀ p, sleepsBetween 15 (wait_tiller_available p m).trace = true) ∧
    (∀ p, (∀ i, clusterProbeAvailable (p i) = false) →
      (wait_cluster_available p m).errMsg =
        some "Kubernetes server could not be contacted." ∧
      (wait_cluster_available p m).exitCode = some 1) ∧
    (∀ p, (∀ i, tillerProbeAvailable (p i) = false) →
      (wait_tiller_available p m).errMsg = some "Helm tiller could not be contacted." ∧
      (wait_tiller_available p m).exitCode = some 1) := by
  refine ⟨?_, ?_, ?_, ?_, ?_, ?_⟩
  · intro p q h
    unfold wait_cluster_available
    rw [cluster_loop_congr p q h (m * 60) (m * 60) 0 0 (by omega)]
  · intro p q h
    unfold wait_tiller_available
    rw [tiller_loop_congr p q h (m * 60) (m * 60) 0 0 (by omega)]
  · intro p
    unfold wait_cluster_available
    have hs := cluster_loop_sleeps p (m * 60) (m * 60) 0 0 (by omega)
    by_cases hr : (cluster_loop p (m * 60) 0 0).2 <;> simp [hr, hs]
  · intro p
    unfold wait_tiller_available
    have hs := tiller_loop_sleeps p (m * 60) (m * 60) 0 0 (by omega)
    by_cases hr : (tiller_loop p (m * 60) 0 0).2 <;> simp [hr, hs]
  · intro p hp
    unfold wait_cluster_available
    have hn := cluster_loop_never p hp (m * 60) (m * 60) 0 0 (by omega)
    simp [hn]
  · intro p hp
    unfold wait_tiller_available
    have hn := tiller_loop_never p hp (m * 60) (m * 60) 0 0 (by omega)
    simp [hn]

/-- Witness for C6: an always-raising cluster probe runs identically to an
always-parsed-but-version-less one, and an always-raising tiller probe ends in
the fatal exit. -/
theorem C6_poller_error_tolerance_witness :
    wait_cluster_available (fun _ => KubectlProbe.exn) 1 =
      wait_cluster_available (fun _ => KubectlProbe.ok false) 1 ∧
    (wait_tiller_available (fun _ => TillerProbe.exn) 1).exitCode = some 1 := by
  have h := C6_poller_error_tolerance 1
  exact ⟨h.1 (fun _ => KubectlProbe.exn) (fun _ => KubectlProbe.ok false) (fun _ => rfl),
         (h.2.2.2.2.2 (fun _ => TillerProbe.exn) (fun _ => rfl)).2⟩

theorem runSteps_mem (steps : List (FlowEv × Bool)) :
    ∀ e ∈ (runSteps steps).1, e ∈ steps.map Prod.fst := by
  induction steps with
  | nil => intro e he; cases he
  | cons s rest ih =>
    intro e he
    rw [show s = (s.1, s.2) from rfl, runSteps] at he
    by_cases hs : s.2 = true
    · rw [if_pos hs] at he
      rcases List.mem_cons.mp he with he1 | he1
      · subst he1
        simp
      · simp only [List.map_cons, List.mem_cons]
        exact Or.inr (ih e he1)
    · rw [if_neg hs] at he
      rcases List.mem_singleton.mp he with he1
      subst he1
      simp

theorem runSteps_all_ok (steps : List (FlowEv × Bool)) (h : ∀ s ∈ steps, s.2 = true) :
    runSteps steps = (steps.map Prod.fst, true) := by
  induction steps with
  | nil => rfl
  | cons s rest ih =>
    have hs : s.2 = true := h s (List.mem_cons_self s rest)
    rw [show s = (s.1, s.2) from rfl]
    simp only [runSteps, hs, if_true]
    rw [ih (fun x hx => h x (List.mem_cons_of_mem s hx))]
    simp

/-- C3. Destroy ordering and atomicity: the destroy-step subtrace is always a
gap-free front of `[kopsDelete, tfDestroy]` (so the cluster delete is always
invoked before the infrastructure destroy); if the cluster delete fails, the
infrastructure destroy is never attempted and the process exits with status 1;
with `--yes` no confirmation prompt is shown. -/
theorem C3_destroy_order_atomic (name : String)
    (yes confirmAnswer kopsDeleteOk tfDestroyOk : Bool) :
    ((destroy_run name yes confirmAnswer kopsDeleteOk tfDestroyOk).1.filter isDestroyStep =
        [FlowEv.kopsDelete, FlowEv.tfDestroy] ∨
     (destroy_run name yes confirmAnswer kopsDeleteOk tfDestroyOk).1.filter isDestroyStep =
        [FlowEv.kopsDelete] ∨
     (destroy_run name yes confirmAnswer kopsDeleteOk tfDestroyOk).1.filter isDestroyStep =
        []) ∧
    (kopsDeleteOk = false →
      FlowEv.tfDestroy ∉ (destroy_run name yes confirmAnswer kopsDeleteOk tfDestroyOk).1 ∧
      (destroy_run name yes confirmAnswer kopsDeleteOk tfDestroyOk).2 = ExitKind.exited 1) ∧
    (yes = true →
      ∀ m, FlowEv.promptShown m ∉
        (destroy_run name yes confirmAnswer kopsDeleteOk tfDestroyOk).1) := by
  cases yes <;> cases confirmAnswer <;> cases kopsDeleteOk <;> cases tfDestroyOk <;>
    simp [destroy_run, destroy_body, isDestroyStep]

/-- Witness for C3: `--yes` supplied and the kops delete fails. -/
theorem C3_destroy_order_atomic_witness :
    FlowEv.tfDestroy ∉ (destroy_run "ship.example.com" true true false true).1 ∧
    (destroy_run "ship.example.com" true true false true).2 = ExitKind.exited 1 ∧
    FlowEv.promptShown "Are you sure you want to destroy ship.example.com?" ∉
      (destroy_run "ship.example.com" true true false true).1 := by
  have h := C3_destroy_order_atomic "ship.example.com" true true false true
  exact ⟨(h.2.1 rfl).1, (h.2.1 rfl).2,
         h.2.2 rfl "Are you sure you want to destroy ship.example.com?"⟩

/-- C8. Update confirmation gate: running `update` without `--yes` and
declining the confirmation aborts with exit status 1, the whole trace being
the confirmation prompt — in particular no template rendering and no external
tool invocation has occurred. -/
theorem C8_update_confirmation_gate (name : String) (o : UpdateOutcomes)
    (rollingAnswer : Bool) :
    update_run name o false false rollingAnswer =
      ([FlowEv.promptShown ("Are you sure you want to update " ++ name ++ "?")],
       ExitKind.exited 1) := by
  simp [update_run]

theorem install_repos_eq (ok : RepoSpec → Bool) (repos : List RepoSpec) :
    install_repos ok repos =
      ((repos.takeWhile ok ++ (repos.dropWhile ok).take 1).map
          (fun r => FlowEv.repoAdd r.name),
       repos.all ok) := by
  induction repos with
  | nil => rfl
  | cons r rest ih =>
    by_cases hr : ok r
    · simp only [install_repos, hr, if_true, ih, List.takeWhile_cons, List.dropWhile_cons,
        List.all_cons, Bool.true_and, List.map_cons, List.cons_append]
    · have hrf : ok r = false := by simpa using hr
      simp [install_repos, hrf, List.takeWhile_cons, List.dropWhile_cons]

theorem install_charts_eq (ok : ChartSpec → Bool) (charts : List ChartSpec) :
    install_charts ok charts =
      ((charts.takeWhile ok ++ (charts.dropWhile ok).take 1).map
          (fun c => FlowEv.chartInstall c.release),
       charts.all ok) := by
  induction charts with
  | nil => rfl
  | cons c rest ih =>
    by_cases hc : ok c
    · simp only [install_charts, hc, if_true, ih, List.takeWhile_cons, List.dropWhile_cons,
        List.all_cons, Bool.true_and, List.map_cons, List.cons_append]
    · have hcf : ok c = false := by simpa using hc
      simp [install_charts, hcf, List.takeWhile_cons, List.dropWhile_cons]

/-- C9. Chart installation order and abort: (1) when every call succeeds, the
trace is all configured repos in declaration order followed by all configured
charts in declaration order; (2) a failing repo-add aborts everything after it
— in particular no chart is ever attempted — leaving the attempted repo front
(declared order) in the trace; (3) with repos fine, a failing chart install
aborts the remaining installs while the already-installed chart front stays in
the trace (nothing is rolled back). -/
theorem C9_chart_install_order (repos : List RepoSpec) (charts : List ChartSpec)
    (okR : RepoSpec → Bool) (okC : ChartSpec → Bool) :
    ((∀ r ∈ repos, okR r = true) → (∀ c ∈ charts, okC c = true) →
      install_repos_charts repos charts okR okC =
        (repos.map (fun r => FlowEv.repoAdd r.name) ++
         charts.map (fun c => FlowEv.chartInstall c.release), true)) ∧
    (repos.all okR = false →
      install_repos_charts repos charts okR okC =
        ((repos.takeWhile okR ++ (repos.dropWhile okR).take 1).map
            (fun r => FlowEv.repoAdd r.name), false)) ∧
    (repos.all okR = true → charts.all okC = false →
      install_repos_charts repos charts okR okC =
        (repos.map (fun r => FlowEv.repoAdd r.name) ++
         (charts.takeWhile okC ++ (charts.dropWhile okC).take 1).map
            (fun c => FlowEv.chartInstall c.release), false)) := by
  refine ⟨?_, ?_, ?_⟩
  · intro hr hc
    have hra : repos.all okR = true := List.all_eq_true.mpr hr
    have hca : charts.all okC = true := List.all_eq_true.mpr hc
    unfold install_repos_charts
    rw [install_repos_eq, install_charts_eq]
    simp only [hra, hca, if_true]
    rw [List.takeWhile_eq_self_iff.mpr hr, List.dropWhile_eq_nil_iff.mpr hc,
        List.takeWhile_eq_self_iff.mpr hc, List.dropWhile_eq_nil_iff.mpr hr]
    simp
  · intro hra
    unfold install_repos_charts
    rw [install_repos_eq]
    simp [hra]
  · intro hra hca
    have hr : ∀ r ∈ repos, okR r = true := List.all_eq_true.mp hra
    unfold install_repos_charts
    rw [install_repos_eq, install_charts_eq]
    simp only [hra, hca, if_true]
    rw [List.takeWhile_eq_self_iff.mpr hr, List.dropWhile_eq_nil_iff.mpr hr]
    simp

/-- Witness for C9, part (1): one repo and one chart, everything succeeding. -/
theorem C9_chart_install_order_witness :
    install_repos_charts [⟨"stable", "https://charts.example.com"⟩]
        [⟨"nginx-ingress", "ingress", "kube-system", none⟩]
        (fun _ => true) (fun _ => true) =
      ([FlowEv.repoAdd "stable", FlowEv.chartInstall "ingress"], true) := by
  have h := C9_chart_install_order [⟨"stable", "https://charts.example.com"⟩]
    [⟨"nginx-ingress", "ingress", "kube-system", none⟩] (fun _ => true) (fun _ => true)
  exact h.1 (fun r _ => rfl) (fun c _ => rfl)

theorem wait_cluster_first (m : Nat) (hm : 0 < m) (p : Nat → KubectlProbe)
    (hp : clusterProbeAvailable (p 0) = true) :
    wait_cluster_available p m = ⟨[PollEv.attempt 0], true, none, none⟩ := by
  unfold wait_cluster_available
  rw [cluster_loop]
  have h0 : 0 < m * 60 := by omega
  simp [h0, hp]

theorem wait_cluster_timeout (m : Nat) (p : Nat → KubectlProbe)
    (hp : ∀ i, clusterProbeAvailable (p i) = false) :
    wait_cluster_available p m =
      ⟨(cluster_loop p (m * 60) 0 0).1, false,
       some "Kubernetes server could not be contacted.", some 1⟩ := by
  unfold wait_cluster_available
  have hn := cluster_loop_never p hp (m * 60) (m * 60) 0 0 (by omega)
  simp [hn]

/-- Counterexample to C7 as stated: in the `create` flow, a failing
`install_components` step (here the tiller-permissions `kubectl apply`) is an
error of the flow, yet the process terminates with an unhandled exception —
not via `sys.exit(1)` — and no one-line contextual message is written to the
error stream. -/
theorem C7_error_propagation_cex :
    (create_run cexCreateOutcomes [] [] 1 1).2 = ExitKind.unhandled ∧
    (create_run cexCreateOutcomes [] [] 1 1).2 ≠ ExitKind.exited 1 ∧
    ∀ msg, FlowEv.errLine msg ∉ (create_run cexCreateOutcomes [] [] 1 1).1 := by
  have hp : wait_cluster_available cexCreateOutcomes.clusterProbe 1 =
      ⟨[PollEv.attempt 0], true, none, none⟩ :=
    wait_cluster_first 1 (by omega) _ rfl
  have hrun : create_run cexCreateOutcomes [] [] 1 1 =
      ([FlowEv.renderTf, FlowEv.tfApply, FlowEv.renderKops, FlowEv.kopsCreate,
        FlowEv.kopsSshKey, FlowEv.kopsUpdate, FlowEv.pollCluster,
        FlowEv.kubectlApplyPerms], ExitKind.unhandled) := by
    unfold create_run
    rw [hp]
    rfl
  rw [hrun]
  refine ⟨rfl, by simp, ?_⟩
  intro msg
  simp

/-- C7, amended. Errors in the guarded phases of the three flows do get a
one-line contextual message on stderr and exit status 1:
(1) any failing step of `create`'s try block, (2) a cluster-poller timeout in
`create`, (3) any failing step of `update`'s try block, (4)-(5) any failing
destroy step. But (6): an error raised inside `install_components` (here the
tiller-permissions apply) is NOT caught by the `create` flow — the process
terminates with an unhandled exception and no one-line message is printed. -/
theorem C7_error_propagation_amended (o : CreateOutcomes) (repos : List RepoSpec)
    (charts : List ChartSpec) (ct tt : Nat) (name : String) (uo : UpdateOutcomes)
    (ra kd td : Bool) :
    ((runSteps (create_try_steps o)).2 = false →
      (create_run o repos charts ct tt).2 = ExitKind.exited 1 ∧
      FlowEv.errLine "Create cluster failed:" ∈ (create_run o repos charts ct tt).1) ∧
    ((runSteps (create_try_steps o)).2 = true →
      (∀ i, clusterProbeAvailable (o.clusterProbe i) = false) →
      (create_run o repos charts ct tt).2 = ExitKind.exited 1 ∧
      FlowEv.errLine "Kubernetes server could not be contacted." ∈
        (create_run o repos charts ct tt).1) ∧
    ((runSteps [(FlowEv.renderTf, uo.renderTfOk), (FlowEv.tfApply, uo.tfApplyOk),
        (FlowEv.renderKops, uo.renderKopsOk), (FlowEv.kopsReplace, uo.kopsReplaceOk),
        (FlowEv.kopsUpdate, uo.kopsUpdateOk)]).2 = false →
      (update_run name uo true true ra).2 = ExitKind.exited 1 ∧
      FlowEv.errLine "Update cluster failed:" ∈ (update_run name uo true true ra).1) ∧
    (kd = false →
      (destroy_run name true true kd td).2 = ExitKind.exited 1 ∧
      FlowEv.errLine "Destroy cluster failed:" ∈ (destroy_run name true true kd td).1) ∧
    (td = false →
      (destroy_run name true true kd td).2 = ExitKind.exited 1 ∧
      FlowEv.errLine "Destroy cluster failed:" ∈ (destroy_run name true true kd td).1) ∧
    ((runSteps (create_try_steps o)).2 = true →
      (wait_cluster_available o.clusterProbe ct).exitCode = none →
      o.inst.kubectlPermsOk = false →
      (create_run o repos charts ct tt).2 = ExitKind.unhandled ∧
      ∀ msg, FlowEv.errLine msg ∉ (create_run o repos charts ct tt).1) := by
  refine ⟨?_, ?_, ?_, ?_, ?_, ?_⟩
  · intro h
    simp only [create_run]
    rw [h]
    simp
  · intro h hp
    have ht := wait_cluster_timeout ct o.clusterProbe hp
    simp only [create_run]
    rw [h, ht]
    simp
  · intro h
    simp only [update_run, if_true]
    simp only [update_try]
    rw [h]
    simp
  · intro h
    subst h
    cases td <;> simp [destroy_run, destroy_body]
  · intro h
    subst h
    cases kd <;> simp [destroy_run, destroy_body]
  · intro h hn hk
    simp only [create_run, install_components_run]
    rw [h, hn, hk]
    simp only [if_true, Bool.false_eq_true, if_false]
    refine ⟨by simp, ?_⟩
    intro msg hmem
    rcases List.mem_append.mp hmem with hmem1 | hmem1
    · rcases List.mem_append.mp hmem1 with hmem2 | hmem2
      · have := runSteps_mem (create_try_steps o) _ hmem2
        simp [create_try_steps] at this
      · simp at hmem2
    · simp at hmem1

/-- Witness for the amended C7: a failing first step of `create` produces the
contextual message and exit status 1. -/
theorem C7_error_propagation_amended_witness :
    (create_run cexFailCreate [] [] 1 1).2 = ExitKind.exited 1 ∧
    FlowEv.errLine "Create cluster failed:" ∈ (create_run cexFailCreate [] [] 1 1).1 :=
  (C7_error_propagation_amended cexFailCreate [] [] 1 1 "ship.example.com"
    ⟨true, true, true, true, true, true⟩ true true true).1 rfl

/-- C10. The apply invocation always carries an explicit state argument
`-state=<outputDir>/terraform.tfstate`, while the destroy invocation's
arguments (after the binary) are exactly `destroy -force <configDir>` and in
particular never contain the state argument that apply used — the destroy
flow's provisioner call does not reference the state file apply wrote. -/
theorem C10_state_path_args (bin dir : String) :
    ("-state=" ++ terraform_state_path dir) ∈
      terraform_apply_argv bin dir (terraform_state_path dir) ∧
    terraform_state_path dir = dir ++ "/terraform.tfstate" ∧
    (terraform_destroy_argv bin dir).drop 1 = ["destroy", "-force", dir] ∧
    ("-state=" ++ terraform_state_path dir) ∉ (terraform_destroy_argv bin dir).drop 1 := by
  refine ⟨by simp [terraform_apply_argv], rfl, rfl, ?_⟩
  intro hmem
  simp only [terraform_destroy_argv, terraform_state_path, List.drop_succ_cons,
    List.drop_zero, List.mem_cons, List.not_mem_nil, or_false] at hmem
  rcases hmem with h | h | h
  · have hl := congrArg String.length h
    rw [String.length_append, String.length_append] at hl
    simp only [show ("-state=" : String).length = 7 from rfl,
      show ("/terraform.tfstate" : String).length = 18 from rfl,
      show ("destroy" : String).length = 7 from rfl] at hl
    omega
  · have hl := congrArg String.length h
    rw [String.length_append, String.length_append] at hl
    simp only [show ("-state=" : String).length = 7 from rfl,
      show ("/terraform.tfstate" : String).length = 18 from rfl,
      show ("-force" : String).length = 6 from rfl] at hl
    omega
  · have hl := congrArg String.length h
    rw [String.length_append, String.length_append] at hl
    simp only [show ("-state=" : String).length = 7 from rfl,
      show ("/terraform.tfstate" : String).length = 18 from rfl] at hl
    omega

/-- Counterexample to C4 as stated: a configuration overriding the chart
installer (`helm`) binary with a path that does not exist on disk still
passes `validate_config` — only overridden `terraform` and `kops` paths are
existence-checked. -/
theorem C4_overridden_binary_check_cex :
    cexPaths.helm = some "/no/such/helm" ∧
    cexFS.isFile "/no/such/helm" = false ∧
    (validate_config cexFS true true cexPaths).2 = none :=
  ⟨rfl, rfl, rfl⟩

/-- C4, amended. With schema load and schema check passing and every required
path present: (a) when terraform and kops binaries are overridden with
existing files, validation runs exactly the checks schema-load, schema-check,
SSH key, terraform template, kops template, output directory, overridden
terraform binary, overridden kops binary — in that order — and succeeds;
(b) a nonexistent overridden terraform binary fails validation;
(c) a nonexistent overridden kops binary fails validation;
(d) the helm and kubectl override fields are never consulted by validation. -/
theorem C4_overridden_binary_check_amended (fs : FS) (p : Paths) (qt qk : String)
    (h1 : fs.isFile p.sshPublicKeyPath = true)
    (h2 : fs.isFile p.terraformTemplatePath = true)
    (h3 : fs.isFile p.kopsTemplatePath = true)
    (h4 : fs.isDir p.outputDir = true) :
    (p.terraform = some qt → p.kops = some qk →
     fs.isFile qt = true → fs.isFile qk = true →
      validate_config fs true true p =
        ([CheckEv.schemaLoad, CheckEv.schemaCheck,
          CheckEv.fileCheck p.sshPublicKeyPath "SSH Public Key",
          CheckEv.fileCheck p.terraformTemplatePath "Terraform Template",
          CheckEv.fileCheck p.kopsTemplatePath "Kops Template",
          CheckEv.dirCheck p.outputDir,
          CheckEv.fileCheck qt "terraform binary",
          CheckEv.fileCheck qk "kops binary"], none)) ∧
    (p.terraform = some qt → fs.isFile qt = false →
      (validate_config fs true true p).2 =
        some ("terraform binary not found at " ++ qt)) ∧
    (p.terraform = none → p.kops = some qk → fs.isFile qk = false →
      (validate_config fs true true p).2 =
        some ("kops binary not found at " ++ qk)) ∧
    (∀ oh ok2, validate_config fs true true { p with helm := oh, kubectl := ok2 } =
      validate_config fs true true p) := by
  refine ⟨?_, ?_, ?_, ?_⟩
  · intro ht hk hft hfk
    simp [validate_config, validate_file_exists, validate_binary_overrides,
      validate_kops_override, h1, h2, h3, h4, ht, hk, hft, hfk]
  · intro ht hft
    simp [validate_config, validate_file_exists, validate_binary_overrides,
      validate_kops_override, h1, h2, h3, h4, ht, hft]
  · intro ht hk hfk
    simp [validate_config, validate_file_exists, validate_binary_overrides,
      validate_kops_override, h1, h2, h3, h4, ht, hk, hfk]
  · intro oh ok2
    cases p
    rfl

/-- Witness for the amended C4 at a concrete config with both overrides
present and existing. -/
theorem C4_overridden_binary_check_amended_witness :
    validate_config cexFS2 true true cexPaths2 =
      ([CheckEv.schemaLoad, CheckEv.schemaCheck,
        CheckEv.fileCheck "/ssh.pub" "SSH Public Key",
        CheckEv.fileCheck "/t.tpl" "Terraform Template",
        CheckEv.fileCheck "/k.tpl" "Kops Template",
        CheckEv.dirCheck "/out",
        CheckEv.fileCheck "/bin/terraform" "terraform binary",
        CheckEv.fileCheck "/bin/kops" "kops binary"], none) :=
  (C4_overridden_binary_check_amended cexFS2 cexPaths2 "/bin/terraform" "/bin/kops"
    rfl rfl rfl rfl).1 rfl rfl rfl rfl

/-- C5. Tool probing before mutation: when validation passed but some tool's
version probe fails, `set_binary_paths` raises the `IOError` naming the first
failing tool (in probe order terraform, kops, helm, kubectl), this exception
is not caught by `cli`, and the subcommand — hence any mutating operation
(infrastructure apply, cluster create, chart install) — never runs: the run's
event trace is empty. -/
theorem C5_tool_probe_abort (fs : FS) (slo sv : Bool) (p : Paths)
    (probeOk : Tool → Bool) (T : Tool) (cmd : List FlowEv × ExitKind)
    (hT : firstFailingTool probeOk = some T)
    (hv : (validate_config fs slo sv p).2 = none) :
    set_binary_paths p probeOk = Except.error (tool_probe_error T) ∧
    cli_run true true fs slo sv p probeOk cmd = ([], ExitKind.unhandled) := by
  have hsb : set_binary_paths p probeOk = Except.error (tool_probe_error T) := by
    cases h1 : probeOk Tool.terraform with
    | false =>
      simp only [firstFailingTool, h1, if_true, Option.some.injEq] at hT
      subst hT
      simp [set_binary_paths, h1]
    | true =>
      cases h2 : probeOk Tool.kops with
      | false =>
        simp [firstFailingTool, h1, h2] at hT
        subst hT
        simp [set_binary_paths, h1, h2]
      | true =>
        cases h3 : probeOk Tool.helm with
        | false =>
          simp [firstFailingTool, h1, h2, h3] at hT
          subst hT
          simp [set_binary_paths, h1, h2, h3]
        | true =>
          cases h4 : probeOk Tool.kubectl with
          | false =>
            simp [firstFailingTool, h1, h2, h3, h4] at hT
            subst hT
            simp [set_binary_paths, h1, h2, h3, h4]
          | true =>
            simp [firstFailingTool, h1, h2, h3, h4] at hT
  refine ⟨hsb, ?_⟩
  simp [cli_run, hv, hsb]

/-- Witness for C5: helm's probe fails on a config that validates. -/
theorem C5_tool_probe_abort_witness :
    set_binary_paths cexPaths2 helmFailProbe = Except.error (tool_probe_error Tool.helm) ∧
    cli_run true true cexFS2 true true cexPaths2 helmFailProbe ([], ExitKind.normal) =
      ([], ExitKind.unhandled) :=
  C5_tool_probe_abort cexFS2 true true cexPaths2 helmFailProbe Tool.helm
    ([], ExitKind.normal) rfl rfl

end Ship
